import Mathlib

/-!
Shallow embedding of `src/Speech_check.py` (class `SpeechRecognitionApp`):
the recognition-backend dispatch and error-normalization layer, plus the
save/export step `create_download_file`.

Modelling conventions:
* Python exceptions are an inductive `Exc`; code that may raise returns
  `Except Exc _`.  `except` clauses are rendered as matches on the error.
* The underlying `speech_recognition` engine (`self.recognizer`) is an
  external collaborator: its raw calls `recognize_google`, `recognize_sphinx`
  are parameters (a `Recognizer` structure), and the outcome of
  `self.recognizer.listen(source, timeout, phrase_time_limit)` inside the
  `try` block is supplied as an input `listen_result` (the audio-capture
  collaborator of the spec).  The audio sample type is opaque (a parameter).
* The mutable field `self.last_transcription` is the one piece of app state
  the dispatch layer touches; it is threaded explicitly.
* The temp-file artifact of `create_download_file` is modelled by the text
  written to it (`some text`), `none` when the function returns `None`.
-/

namespace SpeechCheck

/-- Python exceptions relevant to `Speech_check.py`: `sr.WaitTimeoutError`,
`sr.UnknownValueError`, `sr.RequestError` (with its message), and any other
`Exception` (with its `str`).  All four are subclasses of `Exception`. -/
inductive Exc where
  | waitTimeoutError
  | unknownValueError
  | requestError (msg : String)
  | other (msg : String)
deriving DecidableEq, Repr

/-- `str(e)` for an exception `e` as interpolated by Python f-strings:
`RequestError` and generic exceptions print their message;
`sr.WaitTimeoutError` is raised by the library with this fixed message;
`sr.UnknownValueError` is raised bare, so its `str` is empty. -/
def Exc.str : Exc → String
  | .waitTimeoutError => "listening timed out while waiting for phrase to start"
  | .unknownValueError => ""
  | .requestError msg => msg
  | .other msg => msg

/-- The raw recognition engine `self.recognizer` (external library): each call
returns text or raises.  `recognize_google` is called with a language argument;
`recognize_sphinx` is called with the audio only (see line 37 of the source). -/
structure Recognizer (Audio : Type) where
  recognize_google : Audio → String → Except Exc String
  recognize_sphinx : Audio → Except Exc String

/-- `SpeechRecognitionApp.recognize_with_google` (lines 26-33):
`try: return recognizer.recognize_google(audio, language)` with
`except sr.UnknownValueError` and `except sr.RequestError as e` handlers;
any other exception propagates. -/
def recognize_with_google {Audio : Type} (rec : Recognizer Audio)
    (audio : Audio) (language : String) : Except Exc String :=
  match rec.recognize_google audio language with
  | .ok text => .ok text
  | .error .unknownValueError =>
      .ok "Google Speech Recognition could not understand the audio"
  | .error (.requestError e) =>
      .ok ("Could not request results from Google Speech Recognition service; " ++ e)
  | .error e => .error e

/-- `SpeechRecognitionApp.recognize_with_sphinx` (lines 35-42):
`recognizer.recognize_sphinx(audio)` — the `language` parameter is accepted
but never passed on — with the two analogous handlers. -/
def recognize_with_sphinx {Audio : Type} (rec : Recognizer Audio)
    (audio : Audio) (language : String) : Except Exc String :=
  match rec.recognize_sphinx audio with
  | .ok text => .ok text
  | .error .unknownValueError =>
      .ok "Sphinx could not understand the audio"
  | .error (.requestError e) =>
      .ok ("Sphinx error: " ++ e)
  | .error e => .error e

/-- The registry `self.recognition_apis` built in `__init__` (lines 12-15):
backend display name to bound method. -/
def recognition_apis {Audio : Type} (rec : Recognizer Audio) :
    List (String × (Audio → String → Except Exc String)) :=
  [("Google Speech Recognition", recognize_with_google rec),
   ("Sphinx (Offline)", recognize_with_sphinx rec)]

/-- The dictionary `self.languages` built in `__init__` (lines 16-22). -/
def languages : List (String × String) :=
  [("English (US)", "en-US"),
   ("Spanish", "es-ES"),
   ("French", "fr-FR"),
   ("German", "de-DE"),
   ("Chinese (Mandarin)", "zh-CN")]

/-- Python `dict.get(key, default)` on the literal dictionaries above
(no duplicate keys, so first-match association lookup coincides). -/
def dictGet {α : Type} (d : List (String × α)) (key : String) (default : α) : α :=
  match d.lookup key with
  | some v => v
  | none => default

/-- The mutable app state touched by the dispatch layer: the field
`self.last_transcription`, initialised to `""` in `__init__` (line 24). -/
structure SpeechRecognitionApp where
  last_transcription : String
deriving DecidableEq, Repr

/-- Body of the `try` block of `transcribe_speech` (lines 52-65): bind the
listen result, resolve `recognition_method` via
`self.recognition_apis.get(api_choice, self.recognize_with_google)`, invoke it
with `self.languages.get(language_choice, "en-US")`, store the transcription
into `self.last_transcription`, and return the text.  Errors escape to the
`except` clauses. -/
def transcribe_try_block {Audio : Type} (rec : Recognizer Audio)
    (api_choice language_choice : String) (listen_result : Except Exc Audio)
    (app : SpeechRecognitionApp) :
    Except Exc (String × SpeechRecognitionApp) :=
  match listen_result with
  | .error e => .error e
  | .ok audio =>
    let recognition_method :=
      dictGet (recognition_apis rec) api_choice (recognize_with_google rec)
    match recognition_method audio (dictGet languages language_choice "en-US") with
    | .error e => .error e
    | .ok text => .ok (text, { app with last_transcription := text })

/-- `SpeechRecognitionApp.transcribe_speech` (lines 44-70), from the `try`
block on: the capture outcome (line 54) is the input `listen_result`; the
`except sr.WaitTimeoutError` clause returns the no-speech sentinel and the
`except Exception as e` clause returns the unexpected-error text, both leaving
`self.last_transcription` untouched.  (Lines 46-50, the microphone context and
ambient-noise calibration, belong to the external audio-capture collaborator
that produces `listen_result`.) -/
def transcribe_speech {Audio : Type} (rec : Recognizer Audio)
    (api_choice language_choice : String) (listen_result : Except Exc Audio)
    (app : SpeechRecognitionApp) :
    Except Exc (String × SpeechRecognitionApp) :=
  match transcribe_try_block rec api_choice language_choice listen_result app with
  | .ok r => .ok r
  | .error .waitTimeoutError => .ok ("No speech detected. Time limit exceeded.", app)
  | .error e => .ok ("An unexpected error occurred: " ++ e.str, app)

/-- `SpeechRecognitionApp.create_download_file` (lines 73-86): refuse falsy
(empty) text and the exact no-speech sentinel, returning `None`; otherwise
write the text to a temp file and return its path (modelled by the content). -/
def create_download_file (text : String) : Option String :=
  if text = "" ∨ text = "No speech detected. Time limit exceeded." then
    none
  else
    some text

/-- Concrete stub engine whose every call raises `sr.UnknownValueError`
(the `Unintelligible` failure kind of the spec). -/
def stubUnknownValue : Recognizer Unit :=
  { recognize_google := fun _ _ => Except.error Exc.unknownValueError,
    recognize_sphinx := fun _ => Except.error Exc.unknownValueError }

/-- Concrete stub engine whose every call raises `sr.RequestError("x")`
(the `BackendUnavailable` failure kind, diagnostic "x"). -/
def stubRequestError : Recognizer Unit :=
  { recognize_google := fun _ _ => Except.error (Exc.requestError "x"),
    recognize_sphinx := fun _ => Except.error (Exc.requestError "x") }

/-- Concrete stub engine that transcribes successfully. -/
def stubOkGoogle : Recognizer Unit :=
  { recognize_google := fun _ _ => Except.ok "hello",
    recognize_sphinx := fun _ => Except.ok "offline" }

/- Helper lemmas shared by the claim theorems. -/

/-- Both `except` clauses of `transcribe_speech` return normally, and they
cover every exception, so the function always produces an `ok` result. -/
theorem transcribe_speech_isOk {Audio : Type} (rec : Recognizer Audio)
    (api_choice language_choice : String) (listen_result : Except Exc Audio)
    (app : SpeechRecognitionApp) :
    ∃ text app2, transcribe_speech rec api_choice language_choice listen_result app
      = Except.ok (text, app2) := by
  unfold transcribe_speech
  cases h : transcribe_try_block rec api_choice language_choice listen_result app with
  | ok r => exact ⟨r.1, r.2, rfl⟩
  | error e => cases e <;> exact ⟨_, _, rfl⟩

/-- The `try` block's outcome does not depend on the incoming state: the only
read of `self` state it performs is of the immutable registry and dictionaries,
and the stored field is overwritten, not read. -/
theorem transcribe_try_block_state_indep {Audio : Type} (rec : Recognizer Audio)
    (api_choice language_choice : String) (listen_result : Except Exc Audio)
    (app app2 : SpeechRecognitionApp) :
    transcribe_try_block rec api_choice language_choice listen_result app
      = transcribe_try_block rec api_choice language_choice listen_result app2 := rfl

/-- Registry lookup for an id that is neither registered key yields the
default backend `recognize_with_google`. -/
theorem recognition_apis_get_unknown {Audio : Type} (rec : Recognizer Audio)
    (api_choice : String)
    (h1 : api_choice ≠ "Google Speech Recognition")
    (h2 : api_choice ≠ "Sphinx (Offline)") :
    dictGet (recognition_apis rec) api_choice (recognize_with_google rec)
      = recognize_with_google rec := by
  have e1 : (api_choice == "Google Speech Recognition") = false := by
    simp [h1]
  have e2 : (api_choice == "Sphinx (Offline)") = false := by
    simp [h2]
  simp [dictGet, recognition_apis, List.lookup, e1, e2]

/-- Language lookup for a choice outside the supported dictionary yields the
default tag "en-US". -/
theorem languages_get_default (language_choice : String)
    (h : language_choice ∉ languages.map Prod.fst) :
    dictGet languages language_choice "en-US" = "en-US" := by
  simp [languages, List.map] at h
  obtain ⟨h1, h2, h3, h4, h5⟩ := h
  have e1 : (language_choice == "English (US)") = false := by simp [h1]
  have e2 : (language_choice == "Spanish") = false := by simp [h2]
  have e3 : (language_choice == "French") = false := by simp [h3]
  have e4 : (language_choice == "German") = false := by simp [h4]
  have e5 : (language_choice == "Chinese (Mandarin)") = false := by simp [h5]
  simp [dictGet, languages, List.lookup, e1, e2, e3, e4, e5]

/-- On the successful path of the `try` block, the stored field is exactly the
returned text. -/
theorem transcribe_try_block_ok_state {Audio : Type} (rec : Recognizer Audio)
    (api_choice language_choice : String) (listen_result : Except Exc Audio)
    (app : SpeechRecognitionApp) (text : String) (app2 : SpeechRecognitionApp)
    (h : transcribe_try_block rec api_choice language_choice listen_result app
      = Except.ok (text, app2)) :
    app2 = { last_transcription := text } := by
  unfold transcribe_try_block at h
  split at h
  · exact absurd h (by simp)
  · dsimp only at h
    split at h
    · exact absurd h (by simp)
    · injection h with h'
      injection h' with ht ha
      rw [← ha, ← ht]

/-- C1: For every backend id (registered or not), every audio sample —
including malformed or empty ones, since the sample type and engine behaviour
are arbitrary — every language choice, and every capture outcome produced by
the timing parameters, `transcribe_speech` returns a string and never
propagates an exception to the caller: the `except sr.WaitTimeoutError` and
`except Exception` clauses absorb every backend-level failure and convert it
to descriptive text. -/
theorem C1_transcribe_speech_never_throws {Audio : Type} (rec : Recognizer Audio)
    (api_choice language_choice : String) (listen_result : Except Exc Audio)
    (app : SpeechRecognitionApp) :
    ∃ text app2, transcribe_speech rec api_choice language_choice listen_result app
      = Except.ok (text, app2) :=
  transcribe_speech_isOk rec api_choice language_choice listen_result app

/-- C2 counterexample: with the Sphinx backend signalling `BackendUnavailable`
(a `RequestError` with diagnostic "x"), dispatch returns "Sphinx error: x",
which is not the claimed template instance
"Could not request results from Sphinx: x" (nor that template with any
backend name, as it does not begin with "Could not request results from"). -/
theorem C2_counterexample :
    transcribe_speech stubRequestError "Sphinx (Offline)" "English (US)"
      (Except.ok ()) { last_transcription := "" }
      = Except.ok ("Sphinx error: x", { last_transcription := "Sphinx error: x" }) ∧
    "Sphinx error: x" ≠ "Could not request results from Sphinx: x" :=
  ⟨rfl, by decide⟩

/-- C2 amended: when a backend signals `Unintelligible` the returned text is
exactly "<BackendName> could not understand the audio" (with names
"Google Speech Recognition" and "Sphinx"); but the `BackendUnavailable`
texts do not follow one consistent template: Google returns
"Could not request results from Google Speech Recognition service; <d>"
while Sphinx returns "Sphinx error: <d>". -/
theorem C2_amended_failure_texts {Audio : Type} (rec : Recognizer Audio)
    (audio : Audio) (language d : String) :
    (rec.recognize_google audio language = Except.error Exc.unknownValueError →
      recognize_with_google rec audio language =
        Except.ok "Google Speech Recognition could not understand the audio") ∧
    (rec.recognize_sphinx audio = Except.error Exc.unknownValueError →
      recognize_with_sphinx rec audio language =
        Except.ok "Sphinx could not understand the audio") ∧
    (rec.recognize_google audio language = Except.error (Exc.requestError d) →
      recognize_with_google rec audio language =
        Except.ok ("Could not request results from Google Speech Recognition service; " ++ d)) ∧
    (rec.recognize_sphinx audio = Except.error (Exc.requestError d) →
      recognize_with_sphinx rec audio language =
        Except.ok ("Sphinx error: " ++ d)) := by
  refine ⟨fun h => ?_, fun h => ?_, fun h => ?_, fun h => ?_⟩ <;>
    simp [recognize_with_google, recognize_with_sphinx, h]

/-- Witness for the amended C2, at concrete stub engines. -/
theorem C2_amended_failure_texts_witness :
    recognize_with_google stubUnknownValue () "en-US" =
      Except.ok "Google Speech Recognition could not understand the audio" ∧
    recognize_with_sphinx stubUnknownValue () "en-US" =
      Except.ok "Sphinx could not understand the audio" ∧
    recognize_with_google stubRequestError () "en-US" =
      Except.ok ("Could not request results from Google Speech Recognition service; " ++ "x") ∧
    recognize_with_sphinx stubRequestError () "en-US" =
      Except.ok ("Sphinx error: " ++ "x") :=
  ⟨(C2_amended_failure_texts stubUnknownValue () "en-US" "x").1 rfl,
   (C2_amended_failure_texts stubUnknownValue () "en-US" "x").2.1 rfl,
   (C2_amended_failure_texts stubRequestError () "en-US" "x").2.2.1 rfl,
   (C2_amended_failure_texts stubRequestError () "en-US" "x").2.2.2 rfl⟩

/-- C3: dispatch with a backend id absent from the registry behaves exactly as
with the default backend, Google Speech Recognition, and still returns a
string: lookup never fails and no unknown-backend error is surfaced. -/
theorem C3_unknown_backend_falls_back {Audio : Type} (rec : Recognizer Audio)
    (api_choice language_choice : String) (listen_result : Except Exc Audio)
    (app : SpeechRecognitionApp)
    (h1 : api_choice ≠ "Google Speech Recognition")
    (h2 : api_choice ≠ "Sphinx (Offline)") :
    transcribe_speech rec api_choice language_choice listen_result app =
      transcribe_speech rec "Google Speech Recognition" language_choice listen_result app ∧
    ∃ text app2, transcribe_speech rec api_choice language_choice listen_result app
      = Except.ok (text, app2) := by
  refine ⟨?_, transcribe_speech_isOk rec api_choice language_choice listen_result app⟩
  have hm := recognition_apis_get_unknown rec api_choice h1 h2
  have hg : dictGet (recognition_apis rec) "Google Speech Recognition"
      (recognize_with_google rec) = recognize_with_google rec := rfl
  unfold transcribe_speech transcribe_try_block
  rw [hm, hg]

/-- Witness for C3, at the unregistered id "bogus". -/
theorem C3_unknown_backend_falls_back_witness :
    transcribe_speech stubOkGoogle "bogus" "English (US)" (Except.ok ())
      { last_transcription := "" } =
    transcribe_speech stubOkGoogle "Google Speech Recognition" "English (US)" (Except.ok ())
      { last_transcription := "" } :=
  (C3_unknown_backend_falls_back stubOkGoogle "bogus" "English (US)" (Except.ok ())
    { last_transcription := "" } (by decide) (by decide)).1

/-- C4 counterexample: the Unintelligible failure text — a sentinel the
dispatcher produces (first conjunct) — is not recognized by
`create_download_file`, which persists it as if it were a real transcript. -/
theorem C4_counterexample :
    recognize_with_google stubUnknownValue () "en-US" =
      Except.ok "Google Speech Recognition could not understand the audio" ∧
    create_download_file "Google Speech Recognition could not understand the audio" =
      some "Google Speech Recognition could not understand the audio" :=
  ⟨rfl, by decide⟩

/-- C4 amended: `create_download_file` refuses exactly the empty text and the
no-speech sentinel "No speech detected. Time limit exceeded."; every other
text the dispatcher can produce as a failure outcome (the Unintelligible and
BackendUnavailable texts) is persisted, not refused. -/
theorem C4_amended_refusal_exact (text : String) :
    create_download_file text = none ↔
      (text = "" ∨ text = "No speech detected. Time limit exceeded.") := by
  by_cases h : text = "" ∨ text = "No speech detected. Time limit exceeded." <;>
    simp [create_download_file, h]

/-- C5 counterexample: a dispatch call on the successful backend path mutates
the stored state: `last_transcription` changes from "" to "hello", so dispatch
is not free of state mutation beyond the registry read. -/
theorem C5_counterexample :
    transcribe_speech stubOkGoogle "Google Speech Recognition" "English (US)"
      (Except.ok ()) { last_transcription := "" }
      = Except.ok ("hello", { last_transcription := "hello" }) ∧
    ({ last_transcription := "hello" } : SpeechRecognitionApp) ≠ { last_transcription := "" } :=
  ⟨rfl, by decide⟩

/-- C5 amended: beyond returning text, dispatch mutates no state other than
the single field `last_transcription`, which it either leaves unchanged or
sets to exactly the returned text. -/
theorem C5_amended_state_frame {Audio : Type} (rec : Recognizer Audio)
    (api_choice language_choice : String) (listen_result : Except Exc Audio)
    (app : SpeechRecognitionApp) (text : String) (app2 : SpeechRecognitionApp)
    (h : transcribe_speech rec api_choice language_choice listen_result app
      = Except.ok (text, app2)) :
    app2 = app ∨ app2 = { last_transcription := text } := by
  unfold transcribe_speech at h
  split at h
  case h_1 r heq =>
    injection h with h'
    refine Or.inr ?_
    have := transcribe_try_block_ok_state rec api_choice language_choice
      listen_result app text app2 (by rw [heq, ← h'])
    exact this
  case h_2 heq =>
    simp only [Except.ok.injEq, Prod.mk.injEq] at h
    exact Or.inl h.2.symm
  case h_3 e heq hne =>
    simp only [Except.ok.injEq, Prod.mk.injEq] at h
    exact Or.inl h.2.symm

/-- Witness for the amended C5, at a concrete successful dispatch. -/
theorem C5_amended_state_frame_witness :
    ({ last_transcription := "hello" } : SpeechRecognitionApp) = { last_transcription := "" } ∨
    ({ last_transcription := "hello" } : SpeechRecognitionApp) = { last_transcription := "hello" } :=
  C5_amended_state_frame stubOkGoogle "Google Speech Recognition" "English (US)"
    (Except.ok ()) { last_transcription := "" } "hello" { last_transcription := "hello" } rfl

/-- C6: for a language choice outside the supported dictionary, dispatch
substitutes the default tag "en-US" and proceeds: it behaves exactly as with
the supported choice "English (US)" (whose tag is "en-US") and still returns
a string. -/
theorem C6_unsupported_language_defaults {Audio : Type} (rec : Recognizer Audio)
    (api_choice language_choice : String) (listen_result : Except Exc Audio)
    (app : SpeechRecognitionApp)
    (h : language_choice ∉ languages.map Prod.fst) :
    dictGet languages language_choice "en-US" = "en-US" ∧
    transcribe_speech rec api_choice language_choice listen_result app =
      transcribe_speech rec api_choice "English (US)" listen_result app ∧
    ∃ text app2, transcribe_speech rec api_choice language_choice listen_result app
      = Except.ok (text, app2) := by
  have hl := languages_get_default language_choice h
  have he : dictGet languages "English (US)" "en-US" = "en-US" := rfl
  refine ⟨hl, ?_, transcribe_speech_isOk rec api_choice language_choice listen_result app⟩
  unfold transcribe_speech transcribe_try_block
  rw [hl, he]

/-- Witness for C6, at the unsupported choice "Klingon". -/
theorem C6_unsupported_language_defaults_witness :
    dictGet languages "Klingon" "en-US" = "en-US" :=
  (C6_unsupported_language_defaults stubOkGoogle "Google Speech Recognition" "Klingon"
    (Except.ok ()) { last_transcription := "" } (by decide)).1

/-- C7: two successive dispatch calls with the same backend, audio and
language return the same outcome text (and the same resulting state): the
stored `last_transcription` the first call may have written is never read, so
no hidden state changes the result. -/
theorem C7_dispatch_idempotent {Audio : Type} (rec : Recognizer Audio)
    (api_choice language_choice : String) (listen_result : Except Exc Audio)
    (app : SpeechRecognitionApp) (text : String) (app2 : SpeechRecognitionApp)
    (h : transcribe_speech rec api_choice language_choice listen_result app
      = Except.ok (text, app2)) :
    transcribe_speech rec api_choice language_choice listen_result app2
      = Except.ok (text, app2) := by
  have hb := transcribe_try_block_state_indep rec api_choice language_choice
    listen_result app app2
  unfold transcribe_speech at h ⊢
  rw [← hb]
  split at h
  case h_1 r heq => exact h
  case h_2 heq =>
    simp only [Except.ok.injEq, Prod.mk.injEq] at h
    rw [h.1]
  case h_3 e heq hne =>
    simp only [Except.ok.injEq, Prod.mk.injEq] at h
    rw [h.1]

/-- Witness for C7: the second of two identical successful dispatch calls
returns the same text. -/
theorem C7_dispatch_idempotent_witness :
    transcribe_speech stubOkGoogle "Google Speech Recognition" "English (US)" (Except.ok ())
      { last_transcription := "hello" }
      = Except.ok ("hello", { last_transcription := "hello" }) :=
  C7_dispatch_idempotent stubOkGoogle "Google Speech Recognition" "English (US)" (Except.ok ())
    { last_transcription := "" } "hello" { last_transcription := "hello" } rfl

/-- C8: given exactly the no-speech sentinel text, or the empty text,
`create_download_file` produces no artifact and returns `None`. -/
theorem C8_no_speech_sentinel_not_saved :
    create_download_file "No speech detected. Time limit exceeded." = none ∧
    create_download_file "" = none := by
  constructor <;> decide

/-- C9: `recognize_with_sphinx` never passes its `language` argument to the
engine, so its result is identical for any two language tags. -/
theorem C9_sphinx_ignores_language {Audio : Type} (rec : Recognizer Audio)
    (audio : Audio) (l1 l2 : String) :
    recognize_with_sphinx rec audio l1 = recognize_with_sphinx rec audio l2 := rfl

/-- C10: if listening ends in a capture timeout, dispatch returns the
no-speech sentinel with the state unchanged; if it ends in any other
exception, dispatch returns the unexpected-error text with the state
unchanged; and whenever the stored `last_transcription` does change, the
backend was actually invoked (the capture yielded an audio sample) and the
field holds exactly the returned text. -/
theorem C10_last_transcription_update {Audio : Type} (rec : Recognizer Audio)
    (api_choice language_choice : String) (listen_result : Except Exc Audio)
    (app : SpeechRecognitionApp) :
    (transcribe_speech rec api_choice language_choice
        (Except.error Exc.waitTimeoutError) app =
      Except.ok ("No speech detected. Time limit exceeded.", app)) ∧
    (∀ m, transcribe_speech rec api_choice language_choice
        (Except.error (Exc.other m)) app =
      Except.ok ("An unexpected error occurred: " ++ m, app)) ∧
    (∀ text app2,
      transcribe_speech rec api_choice language_choice listen_result app
        = Except.ok (text, app2) →
      app2.last_transcription ≠ app.last_transcription →
      (∃ audio, listen_result = Except.ok audio) ∧
        app2.last_transcription = text) := by
  refine ⟨rfl, fun m => rfl, fun text app2 h hne => ?_⟩
  cases listen_result with
  | error e =>
    exfalso
    apply hne
    unfold transcribe_speech transcribe_try_block at h
    cases e <;>
      · dsimp only at h
        simp only [Except.ok.injEq, Prod.mk.injEq] at h
        rw [h.2]
  | ok audio =>
    refine ⟨⟨audio, rfl⟩, ?_⟩
    unfold transcribe_speech at h
    split at h
    case h_1 r heq =>
      injection h with h'
      have := transcribe_try_block_ok_state rec api_choice language_choice
        (Except.ok audio) app text app2 (by rw [heq, ← h'])
      rw [this]
    case h_2 heq =>
      simp only [Except.ok.injEq, Prod.mk.injEq] at h
      exact absurd (by rw [← h.2]) hne
    case h_3 e heq hne2 =>
      simp only [Except.ok.injEq, Prod.mk.injEq] at h
      exact absurd (by rw [← h.2]) hne

/-- Witness for C10, at a concrete capture timeout: the sentinel is returned
and the stored state is untouched. -/
theorem C10_last_transcription_update_witness :
    transcribe_speech stubOkGoogle "Google Speech Recognition" "English (US)"
      (Except.error Exc.waitTimeoutError) { last_transcription := "prev" }
      = Except.ok ("No speech detected. Time limit exceeded.",
          { last_transcription := "prev" }) :=
  (C10_last_transcription_update stubOkGoogle "Google Speech Recognition" "English (US)"
    (Except.error Exc.waitTimeoutError) { last_transcription := "prev" }).1

end SpeechCheck
